import Mathlib

/-!
Verification development for the cue-mcp rendezvous engine.

Shallow embedding of the request/response lifecycle implemented in
`src/cuemcp/models.py`, `src/cuemcp/server.py` and
`src/cuemcp/vscode_simulator.py`.  The SQLite-backed entity store is
modelled as two append-ordered lists of records; SQL point lookups
(`select(...).where(request_id == rid).first()`) become `List.find?`,
ordered scans become explicit fold-based selection over filters.
Wall-clock times are `Nat`; the `response_json` column, which only ever
holds a round-tripped `UserResponse`, is modelled as the parsed value.
The outcome of the polling wait `wait_for_response` (return of a stored
response, `TimeoutError`, or external `asyncio.CancelledError`) is an
explicit `WaitEnd` input to the tool bodies; exceptions raised by store
commits are an explicit fault input, and a Python exception that escapes
a tool is an `Except.error`.
-/

/-- `RequestStatus` from models.py. -/
inductive RequestStatus where
  | pending
  | completed
  | cancelled
deriving DecidableEq, Repr

/-- `ImageContent` from models.py. -/
structure ImageContent where
  mime_type : String
  base64_data : String
deriving DecidableEq, Repr

/-- `UserResponse` from models.py: text plus ordered image list. -/
structure UserResponse where
  text : String
  images : List ImageContent
deriving DecidableEq, Repr

/-- `CueRequest` from models.py (the surrogate integer key is dropped;
records are identified by the unique `request_id`). -/
structure CueRequest where
  request_id : String
  agent_id : String
  prompt : String
  payload : Option String
  status : RequestStatus
  created_at : Nat
  updated_at : Nat
deriving DecidableEq, Repr

/-- `CueResponse` from models.py; `response_json` is modelled as the
parsed `UserResponse` it serializes. -/
structure CueResponse where
  request_id : String
  response : UserResponse
  cancelled : Bool
  created_at : Nat
deriving DecidableEq, Repr

/-- `CueResponse.create` classmethod from models.py. -/
def CueResponse.create (now : Nat) (request_id : String) (response : UserResponse)
    (cancelled : Bool) : CueResponse :=
  { request_id := request_id, response := response, cancelled := cancelled,
    created_at := now }

/-- The shared SQLite database: both tables, in insertion order. -/
structure Store where
  requests : List CueRequest
  responses : List CueResponse
deriving DecidableEq, Repr

/-- `select(CueRequest).where(CueRequest.request_id == rid).first()`. -/
def getRequest (s : Store) (rid : String) : Option CueRequest :=
  s.requests.find? (fun r => decide (r.request_id = rid))

/-- `select(CueResponse).where(CueResponse.request_id == rid).first()`. -/
def getResponse (s : Store) (rid : String) : Option CueResponse :=
  s.responses.find? (fun r => decide (r.request_id = rid))

/-- Status of the request with identifier `rid`, if stored. -/
def statusOf (s : Store) (rid : String) : Option RequestStatus :=
  (getRequest s rid).map (fun r => r.status)

/-- `session.add(request); session.commit()` for a request row. -/
def addRequest (s : Store) (r : CueRequest) : Store :=
  { s with requests := s.requests ++ [r] }

/-- `session.add(response); session.commit()` for a response row. -/
def addResponse (s : Store) (r : CueResponse) : Store :=
  { s with responses := s.responses ++ [r] }

/-- The check-then-insert in cue's interrupt handler (server.py lines
259-268): read the existing response; add the new one only if absent. -/
def createResponseIfAbsent (s : Store) (r : CueResponse) : Store :=
  if (getResponse s r.request_id).isSome then s else addResponse s r

/-- Row-level update applied by `updateRequestStatus`. -/
def setStatusRow (rid : String) (st : RequestStatus) (now : Nat)
    (r : CueRequest) : CueRequest :=
  if r.request_id = rid then { r with status := st, updated_at := now } else r

/-- Look up the request row and, when present, set `status` and
`updated_at` (server.py lines 270-276 and simulator lines 160-164). -/
def updateRequestStatus (s : Store) (rid : String) (st : RequestStatus)
    (now : Nat) : Store :=
  { s with requests := s.requests.map (setStatusRow rid st now) }

/-- `CUE_TODO_CONSTRAINT_TEXT` from src/cuemcp/server.py lines 24-27. -/
def CUE_TODO_CONSTRAINT_TEXT : String :=
  "重要：【Human Agent Protocol 强制遵循】你必须遵循Human Agent Protocol协议：在每次完成我的指令之前或回答问题时，必须向我 cue（即调用 cue(prompt, agent_id, payload?) 让我继续输入）。未实际调用 cue之前，不得结束回复；\n\n" ++
  "重要：【todo_list 强制检查】开始执行此条用户指令前，请检查当前 todo_list，并确保最后一条任务为\x27用 cue发送\x7b\x7b用户这条指令所对应的可能的响应\x7d\x7d\x27。 若不存在，必须立即补充添加。"

/-- Message returned by `cue` when the stored response is cancelled
(server.py line 292). -/
def cueDeclinedMsg : String :=
  "The user did not continue. Call pause(agent_id) to suspend and wait for resume.\n\n"

/-- Message returned by `cue` on the empty-answer branch (server.py
lines 314-316). -/
def cueNoInputMsg : String :=
  "No user input received. Call pause(agent_id) to suspend and wait for resume.\n\n" ++
  CUE_TODO_CONSTRAINT_TEXT

/-- Message returned by `cue` when the bounded wait times out
(server.py line 281). -/
def cueTimedOutMsg : String :=
  "Timed out waiting for user response. Call pause(agent_id) to suspend and wait for resume.\n\n"

/-- Message returned by `cue` when the wait is externally cancelled
(server.py line 283). -/
def cueCancelledMsg : String :=
  "Tool call was cancelled. Call pause(agent_id) to suspend and wait for resume.\n\n"

/-- Message returned by `pause` when the stored response is cancelled
(server.py lines 188-191). -/
def pauseDeclinedMsg : String :=
  "The user did not continue. Call pause(agent_id) to suspend and wait for resume.\n\n" ++
  CUE_TODO_CONSTRAINT_TEXT

/-- Message returned by `pause` on the empty-answer branch (server.py
lines 199-202). -/
def pauseResumedMsg : String :=
  "The user resumed the conversation.\n\n" ++ CUE_TODO_CONSTRAINT_TEXT

/-- Header prepended to the user text in an answered result
(server.py lines 138 and 325). -/
def answerTextHeader : String := "用户希望继续，并提供了以下指令：\n\n"

/-- Header used when the answer has images but no text (server.py
lines 142 and 327). -/
def answerImagesHeader : String := "用户希望继续，并附加了图片："

/-- Default prompt of `pause` (server.py line 167). -/
def pauseDefaultPrompt : String :=
  "Waiting for your confirmation. Click Continue when you are ready."

/-- The fixed confirmation-only payload of `pause` (server.py line 168). -/
def pausePayloadText : String :=
  "\x7b\"type\":\"confirm\",\"variant\":\"pause\",\"text\":\"Paused. Click Continue when you are ready.\",\"confirm_label\":\"Continue\",\"cancel_label\":\"\"\x7d"

/-- Drop leading whitespace characters. -/
def dropWhileWS : List Char → List Char
  | [] => []
  | c :: cs => if c.isWhitespace then dropWhileWS cs else c :: cs

/-- Python `str.strip()`: remove whitespace from both ends. -/
def pyStrip (s : String) : String :=
  String.mk (List.reverse (dropWhileWS (List.reverse (dropWhileWS s.toList))))

/-- One element of a tool result: `TextContent` or `ImageContent`
from mcp.types. -/
inductive ToolContent where
  | text (body : String)
  | image (data : String) (mimeType : String)
deriving DecidableEq, Repr

/-- `_build_tool_result_from_user_response` (server.py lines 130-149);
`cue` inlines the identical construction at lines 320-341. -/
def buildToolResult (u : UserResponse) : List ToolContent :=
  (if pyStrip u.text ≠ "" then [ToolContent.text (answerTextHeader ++ pyStrip u.text)]
   else if u.images ≠ [] then [ToolContent.text answerImagesHeader]
   else []) ++
  u.images.map (fun img => ToolContent.image img.base64_data img.mime_type) ++
  [ToolContent.text ("\n\n" ++ CUE_TODO_CONSTRAINT_TEXT)]

/-- How a call to `wait_for_response` ends: it returns a stored response,
raises `TimeoutError`, or the task receives `asyncio.CancelledError`. -/
inductive WaitEnd where
  | responded (resp : CueResponse)
  | timedOut
  | extCancel
deriving DecidableEq, Repr

/-- Default `timeout` of `wait_for_response` (server.py line 109). -/
def defaultWaitTimeout : Option Nat := some 600

/-- `cue` calls `wait_for_response(request_id)` with the default
timeout (server.py line 256). -/
def cueWaitTimeout : Option Nat := defaultWaitTimeout

/-- `pause` calls `wait_for_response(request_id, timeout=None)`
(server.py line 183). -/
def pauseWaitTimeout : Option Nat := none

/-- The timeout test of `wait_for_response` (server.py line 123):
`timeout is not None and elapsed > timeout`. -/
def waitTimeoutElapsed (timeout : Option Nat) (elapsed : Nat) : Bool :=
  match timeout with
  | some t => decide (t < elapsed)
  | none => false

/-- The `CueRequest` row created at the start of `cue` (lines 240-246)
and `pause` (lines 170-176): status defaults to Pending, timestamps
default to now. -/
def mkRequest (now : Nat) (rid aid prompt : String) (payload : Option String) :
    CueRequest :=
  { request_id := rid, agent_id := aid, prompt := prompt, payload := payload,
    status := RequestStatus.pending, created_at := now, updated_at := now }

/-- Lines 287-341 of server.py: what `cue` does once `wait_for_response`
has returned a stored response. -/
def cueOnResponse (now : Nat) (s : Store) (rid : String) (resp : CueResponse) :
    Store × List ToolContent :=
  if resp.cancelled then
    (s, [ToolContent.text cueDeclinedMsg])
  else if pyStrip resp.response.text = "" ∧ resp.response.images = [] then
    (updateRequestStatus s rid RequestStatus.completed now,
     [ToolContent.text cueNoInputMsg])
  else
    (s, buildToolResult resp.response)

/-- Lines 257-285 of server.py: the `except (CancelledError, TimeoutError)`
handler of `cue` — write a synthetic cancelled response if none exists,
set the request status to Cancelled, return the interrupt message. -/
def cueOnInterrupt (now : Nat) (s : Store) (rid : String) (isTimeout : Bool) :
    Store × List ToolContent :=
  let s1 := createResponseIfAbsent s
      (CueResponse.create now rid { text := "", images := [] } true)
  let s2 := updateRequestStatus s1 rid RequestStatus.cancelled now
  (s2, [ToolContent.text (if isTimeout then cueTimedOutMsg else cueCancelledMsg)])

/-- The whole `cue` tool body (server.py lines 238-344).  `fault` injects
an exception raised by a store commit inside the outer `try`; the outer
`except Exception` turns it into an `Error:` text result.  `e` says how
the wait ended. -/
def cueTool (now : Nat) (s : Store) (rid aid prompt : String)
    (payload : Option String) (fault : Option String) (e : WaitEnd) :
    Store × List ToolContent :=
  match fault with
  | some err => (s, [ToolContent.text ("Error: " ++ err)])
  | none =>
    let s1 := addRequest s (mkRequest now rid aid prompt payload)
    match e with
    | WaitEnd.responded resp => cueOnResponse now s1 rid resp
    | WaitEnd.timedOut => cueOnInterrupt now s1 rid true
    | WaitEnd.extCancel => cueOnInterrupt now s1 rid false

/-- Lines 183-206 of server.py: what `pause` does after its unbounded
wait.  `pause` has no exception handler, so an interrupt propagates as
a raised exception (`Except.error`) with no store write. -/
def pauseAfterWait (s : Store) (e : WaitEnd) :
    Store × Except String (List ToolContent) :=
  match e with
  | WaitEnd.responded resp =>
    if resp.cancelled then
      (s, Except.ok [ToolContent.text pauseDeclinedMsg])
    else if pyStrip resp.response.text = "" ∧ resp.response.images = [] then
      (s, Except.ok [ToolContent.text pauseResumedMsg])
    else
      (s, Except.ok (buildToolResult resp.response))
  | WaitEnd.timedOut => (s, Except.error ("TimeoutError"))
  | WaitEnd.extCancel => (s, Except.error ("asyncio.CancelledError"))

/-- The whole `pause` tool body (server.py lines 153-206): create the
request with the fixed confirm payload, wait unbounded, map the stored
response; any exception (store fault or interrupt) propagates. -/
def pauseTool (now : Nat) (s : Store) (rid aid : String)
    (prompt : Option String) (fault : Option String) (e : WaitEnd) :
    Store × Except String (List ToolContent) :=
  match fault with
  | some err => (s, Except.error err)
  | none =>
    let s1 := addRequest s
        (mkRequest now rid aid (prompt.getD pauseDefaultPrompt)
          (some pausePayloadText))
    pauseAfterWait s1 e

/-- The response row built by the simulator for a collected reply
(vscode_simulator.py lines 152-156): `cancelled = (not user_text and
not images)`. -/
def responderResponse (now : Nat) (rid user_text : String)
    (images : List ImageContent) : CueResponse :=
  CueResponse.create now rid { text := user_text, images := images }
    (decide (user_text = "") && images.isEmpty)

/-- The write phase of `handle_request` (vscode_simulator.py lines
151-166): add the response row, then set the request status to
Completed. -/
def handle_request_write (now : Nat) (s : Store) (req : CueRequest)
    (user_text : String) (images : List ImageContent) : Store :=
  let s1 := addResponse s (responderResponse now req.request_id user_text images)
  updateRequestStatus s1 req.request_id RequestStatus.completed now

/-- Fold computing the first row of an ascending `created_at` scan:
keeps the earlier-stored row on ties, as the stable SQLite scan does. -/
def oldestFirst : List CueRequest → Option CueRequest
  | [] => none
  | r :: rs =>
    match oldestFirst rs with
    | none => some r
    | some m => if r.created_at ≤ m.created_at then some r else some m

/-- Fold computing the first row of a descending `created_at` scan. -/
def newestFirst : List CueRequest → Option CueRequest
  | [] => none
  | r :: rs =>
    match newestFirst rs with
    | none => some r
    | some m => if m.created_at ≤ r.created_at then some r else some m

/-- The pending-request discovery of `poll_requests`
(vscode_simulator.py lines 113-117):
`select(CueRequest).where(status == PENDING).order_by(created_at).first()`. -/
def findOldestPending (s : Store) : Option CueRequest :=
  oldestFirst (s.requests.filter (fun r => decide (r.status = RequestStatus.pending)))

/-- Does some suffix of `hay` start with `needle`? -/
def charsContain (needle : List Char) : List Char → Bool
  | [] => needle.isEmpty
  | c :: cs => needle.isPrefixOf (c :: cs) || charsContain needle cs

/-- `column.contains(needle)` (SQL `LIKE %needle%`): substring test. -/
def strContains (hay needle : String) : Bool :=
  charsContain needle.toList hay.toList

/-- The query of `recall` (server.py lines 84-89): requests with
non-empty `agent_id` whose `prompt` contains the hints. -/
def recallCandidates (s : Store) (hints : String) : List CueRequest :=
  s.requests.filter
    (fun r => decide (r.agent_id ≠ "") && strContains r.prompt hints)

/-- The identity-recovery tool of server.py lines 71-106 (named
recall there; that word is a command keyword here): agent_id of the
newest matching request, or a freshly generated name when none
matches. -/
def recallTool (s : Store) (hints fresh_name : String) : String :=
  match newestFirst (recallCandidates s hints) with
  | some r => r.agent_id
  | none => fresh_name

theorem find?_append_of_none {α : Type} (l : List α) (p : α → Bool) (x : α)
    (h : l.find? p = none) (hx : p x = true) :
    (l ++ [x]).find? p = some x := by
  induction l with
  | nil => simp [List.find?, hx]
  | cons a as ih =>
    rw [List.find?_cons] at h
    cases hpa : p a with
    | true => rw [hpa] at h; exact absurd h (by simp)
    | false =>
      rw [hpa] at h
      rw [List.cons_append, List.find?_cons, hpa]
      exact ih h

theorem find?_map_keyed (l : List CueRequest) (f : CueRequest → CueRequest)
    (hf : ∀ r, (f r).request_id = r.request_id) (rid : String) :
    (l.map f).find? (fun r => decide (r.request_id = rid))
      = (l.find? (fun r => decide (r.request_id = rid))).map f := by
  induction l with
  | nil => rfl
  | cons a as ih =>
    rw [List.map_cons, List.find?_cons, List.find?_cons, hf a]
    cases hpa : decide (a.request_id = rid) with
    | true => rfl
    | false => exact ih

theorem getRequest_update (s : Store) (rid rid' : String) (st : RequestStatus)
    (now : Nat) :
    getRequest (updateRequestStatus s rid st now) rid'
      = (getRequest s rid').map (setStatusRow rid st now) := by
  unfold getRequest updateRequestStatus
  exact find?_map_keyed s.requests (setStatusRow rid st now)
    (by intro r; unfold setStatusRow; by_cases h : r.request_id = rid <;> simp [h])
    rid'

theorem statusOf_update (s : Store) (rid : String) (st : RequestStatus)
    (now : Nat) :
    statusOf (updateRequestStatus s rid st now) rid
      = (statusOf s rid).map (fun _ => st) := by
  unfold statusOf
  rw [getRequest_update]
  cases h : getRequest s rid with
  | none => rfl
  | some r =>
    have h' : s.requests.find? (fun q => decide (q.request_id = rid)) = some r := h
    have hp := List.find?_some h'
    simp only [decide_eq_true_eq] at hp
    simp [setStatusRow, hp]

theorem responses_update (s : Store) (rid : String) (st : RequestStatus)
    (now : Nat) :
    (updateRequestStatus s rid st now).responses = s.responses := rfl

theorem getResponse_update (s : Store) (rid rid' : String)
    (st : RequestStatus) (now : Nat) :
    getResponse (updateRequestStatus s rid st now) rid' = getResponse s rid' := rfl

theorem statusOf_addResponse (s : Store) (r : CueResponse) (rid : String) :
    statusOf (addResponse s r) rid = statusOf s rid := rfl

theorem getResponse_addResponse_of_none (s : Store) (r : CueResponse)
    (h : getResponse s r.request_id = none) :
    getResponse (addResponse s r) r.request_id = some r := by
  unfold getResponse addResponse at *
  exact find?_append_of_none s.responses _ r h (by simp)

theorem oldestFirst_mem (l : List CueRequest) (m : CueRequest)
    (h : oldestFirst l = some m) : m ∈ l := by
  induction l with
  | nil => simp [oldestFirst] at h
  | cons a as ih =>
    unfold oldestFirst at h
    cases hrec : oldestFirst as with
    | none =>
      rw [hrec] at h
      simp at h
      simp [h]
    | some m' =>
      rw [hrec] at h
      by_cases hle : a.created_at ≤ m'.created_at
      · simp [hle] at h
        simp [h]
      · simp [hle] at h
        exact List.mem_cons_of_mem a (ih (h ▸ hrec))

theorem oldestFirst_eq_min (l : List CueRequest) (r : CueRequest)
    (hmem : r ∈ l)
    (hmin : ∀ r' ∈ l, r' ≠ r → r.created_at < r'.created_at) :
    oldestFirst l = some r := by
  induction l with
  | nil => simp at hmem
  | cons a as ih =>
    by_cases hra : a = r
    · subst hra
      unfold oldestFirst
      cases hrec : oldestFirst as with
      | none => rfl
      | some m =>
        have hm : m ∈ as := oldestFirst_mem as m hrec
        by_cases hmr : m = a
        · simp [hmr]
        · have := hmin m (List.mem_cons_of_mem a hm) hmr
          simp [Nat.le_of_lt this]
    · have hras : r ∈ as := by
        cases hmem with
        | head => exact absurd rfl hra
        | tail _ h => exact h
      have hrec := ih hras
        (by intro r' hr' hne; exact hmin r' (List.mem_cons_of_mem a hr') hne)
      unfold oldestFirst
      rw [hrec]
      have hlt : r.created_at < a.created_at :=
        hmin a (List.mem_cons_self a as) hra
      simp [Nat.not_le_of_lt hlt]

theorem newestFirst_mem (l : List CueRequest) (m : CueRequest)
    (h : newestFirst l = some m) : m ∈ l := by
  induction l with
  | nil => simp [newestFirst] at h
  | cons a as ih =>
    unfold newestFirst at h
    cases hrec : newestFirst as with
    | none =>
      rw [hrec] at h
      simp at h
      simp [h]
    | some m' =>
      rw [hrec] at h
      by_cases hle : m'.created_at ≤ a.created_at
      · simp [hle] at h
        simp [h]
      · simp [hle] at h
        exact List.mem_cons_of_mem a (ih (h ▸ hrec))

theorem newestFirst_eq_max (l : List CueRequest) (r : CueRequest)
    (hmem : r ∈ l)
    (hmax : ∀ r' ∈ l, r' ≠ r → r'.created_at < r.created_at) :
    newestFirst l = some r := by
  induction l with
  | nil => simp at hmem
  | cons a as ih =>
    by_cases hra : a = r
    · subst hra
      unfold newestFirst
      cases hrec : newestFirst as with
      | none => rfl
      | some m =>
        have hm : m ∈ as := newestFirst_mem as m hrec
        by_cases hmr : m = a
        · simp [hmr]
        · have := hmax m (List.mem_cons_of_mem a hm) hmr
          simp [Nat.le_of_lt this]
    · have hras : r ∈ as := by
        cases hmem with
        | head => exact absurd rfl hra
        | tail _ h => exact h
      have hrec := ih hras
        (by intro r' hr' hne; exact hmax r' (List.mem_cons_of_mem a hr') hne)
      unfold newestFirst
      rw [hrec]
      have hlt : a.created_at < r.created_at :=
        hmax a (List.mem_cons_self a as) hra
      simp [Nat.not_le_of_lt hlt]

theorem pauseAfterWait_store (s : Store) (e : WaitEnd) :
    (pauseAfterWait s e).1 = s := by
  cases e with
  | responded resp =>
    unfold pauseAfterWait
    by_cases h1 : resp.cancelled <;>
      by_cases h2 : pyStrip resp.response.text = "" ∧ resp.response.images = [] <;>
        simp [h1, h2]
  | timedOut => rfl
  | extCancel => rfl

/-- Claim C1: for a stored response observed by cue's wait, the checks
run in order — cancelled gives the declined result; otherwise an empty
body (blank trimmed text, no images) sets the request status to
Completed and gives the conversation-ended result; otherwise the
answered result carries the response text and then its images. -/
theorem cue_classifies_stored_response
    (now : Nat) (s : Store) (rid : String) (resp : CueResponse)
    (hobs : getResponse s rid = some resp) :
    (resp.cancelled = true →
      cueOnResponse now s rid resp = (s, [ToolContent.text cueDeclinedMsg]))
    ∧ (resp.cancelled = false → pyStrip resp.response.text = "" →
        resp.response.images = [] →
        (cueOnResponse now s rid resp).2 = [ToolContent.text cueNoInputMsg]
        ∧ statusOf (cueOnResponse now s rid resp).1 rid
            = (statusOf s rid).map (fun _ => RequestStatus.completed))
    ∧ (resp.cancelled = false →
        ¬(pyStrip resp.response.text = "" ∧ resp.response.images = []) →
        cueOnResponse now s rid resp
          = (s, (if pyStrip resp.response.text ≠ "" then
                   [ToolContent.text (answerTextHeader ++ pyStrip resp.response.text)]
                 else [ToolContent.text answerImagesHeader])
                ++ resp.response.images.map
                     (fun img => ToolContent.image img.base64_data img.mime_type)
                ++ [ToolContent.text ("\n\n" ++ CUE_TODO_CONSTRAINT_TEXT)])) := by
  refine ⟨?_, ?_, ?_⟩
  · intro hc
    unfold cueOnResponse
    simp [hc]
  · intro hc ht hi
    unfold cueOnResponse
    simp [hc, ht, hi, statusOf_update]
  · intro hc hne
    unfold cueOnResponse buildToolResult
    by_cases ht : pyStrip resp.response.text = ""
    · have hi : resp.response.images ≠ [] := by
        intro hi
        exact hne ⟨ht, hi⟩
      simp [hc, ht, hi, hne]
    · simp [hc, ht, hne]

def w1req : CueRequest := mkRequest 0 ("r1") ("tavilron") ("ping") none

def w1respC : CueResponse :=
  CueResponse.create 1 ("r1") { text := "stop", images := [] } true

def w1img : ImageContent := { mime_type := "image/png", base64_data := "QUJD" }

def w1respA : CueResponse :=
  CueResponse.create 1 ("r1") { text := " pong ", images := [w1img] } false

def w1store : Store := { requests := [w1req], responses := [w1respC] }

def w1storeA : Store := { requests := [w1req], responses := [w1respA] }

/-- Witness for C1 at concrete inputs: a cancelled stored response and
an answered one with text and an image. -/
theorem cue_classifies_stored_response_witness :
    cueOnResponse 2 w1store ("r1") w1respC
      = (w1store, [ToolContent.text cueDeclinedMsg])
    ∧ cueOnResponse 2 w1storeA ("r1") w1respA
      = (w1storeA,
         [ToolContent.text (answerTextHeader ++ "pong"),
          ToolContent.image ("QUJD") ("image/png"),
          ToolContent.text ("\n\n" ++ CUE_TODO_CONSTRAINT_TEXT)]) := by
  constructor
  · exact (cue_classifies_stored_response 2 w1store ("r1") w1respC rfl).1 rfl
  · have h := (cue_classifies_stored_response 2 w1storeA ("r1") w1respA rfl).2.2
      rfl (by decide)
    rw [h]
    rfl

/-- Claim C2: when cue's bounded wait elapses with no stored response,
the interrupt handler writes a synthetic cancelled empty response (the
write happening only when no response exists for the request), sets the
request status to Cancelled, and returns the timed-out result; a lookup
afterwards yields the cancelled empty response. -/
theorem cue_timeout_synthesizes_response
    (now : Nat) (s : Store) (rid : String) :
    (getResponse s rid = none →
      (cueOnInterrupt now s rid true).2 = [ToolContent.text cueTimedOutMsg]
      ∧ getResponse (cueOnInterrupt now s rid true).1 rid
          = some (CueResponse.create now rid { text := "", images := [] } true)
      ∧ (CueResponse.create now rid { text := "", images := [] } true).cancelled
          = true
      ∧ (CueResponse.create now rid { text := "", images := [] } true).response
          = { text := "", images := [] }
      ∧ statusOf (cueOnInterrupt now s rid true).1 rid
          = (statusOf s rid).map (fun _ => RequestStatus.cancelled))
    ∧ ((getResponse s rid).isSome = true →
      (cueOnInterrupt now s rid true).1.responses = s.responses) := by
  constructor
  · intro h
    have habs : createResponseIfAbsent s
        (CueResponse.create now rid { text := "", images := [] } true)
        = addResponse s (CueResponse.create now rid { text := "", images := [] } true) := by
      unfold createResponseIfAbsent
      simp [CueResponse.create, h]
    refine ⟨rfl, ?_, rfl, rfl, ?_⟩
    · show getResponse (updateRequestStatus (createResponseIfAbsent s _) rid
        RequestStatus.cancelled now) rid = _
      rw [getResponse_update, habs]
      exact getResponse_addResponse_of_none s _ h
    · show statusOf (updateRequestStatus (createResponseIfAbsent s _) rid
        RequestStatus.cancelled now) rid = _
      rw [statusOf_update, habs]
      rfl
  · intro h
    have habs : createResponseIfAbsent s
        (CueResponse.create now rid { text := "", images := [] } true) = s := by
      unfold createResponseIfAbsent
      simp [CueResponse.create, h]
    show (updateRequestStatus (createResponseIfAbsent s _) rid
        RequestStatus.cancelled now).responses = s.responses
    rw [habs]
    rfl

def w2req : CueRequest := mkRequest 3 ("r2") ("tavilron") ("deploy?") none

def w2store : Store := { requests := [w2req], responses := [] }

/-- Witness for C2: a pending request with no response, timed out at
time 7. -/
theorem cue_timeout_synthesizes_response_witness :
    (cueOnInterrupt 7 w2store ("r2") true).2 = [ToolContent.text cueTimedOutMsg]
    ∧ getResponse (cueOnInterrupt 7 w2store ("r2") true).1 ("r2")
        = some (CueResponse.create 7 ("r2") { text := "", images := [] } true)
    ∧ statusOf (cueOnInterrupt 7 w2store ("r2") true).1 ("r2")
        = some RequestStatus.cancelled := by
  have h := (cue_timeout_synthesizes_response 7 w2store ("r2")).1 rfl
  exact ⟨h.1, h.2.1, by rw [h.2.2.2.2]; rfl⟩

def w3req : CueRequest := mkRequest 0 ("r3") ("tavilron") ("ping") none

def w3resp : CueResponse :=
  CueResponse.create 1 ("r3") { text := "pong", images := [] } false

def w3store : Store := { requests := [w3req], responses := [w3resp] }

/-- Counterexample to C3: a human response with text pong is already
stored when the timeout handler of cue runs, yet cue still returns the
timed-out message, not the answered (nor empty, nor declined)
classification of the stored response. -/
theorem cue_interrupt_result_ignores_stored_response :
    getResponse w3store ("r3") = some w3resp
    ∧ w3resp.cancelled = false
    ∧ pyStrip w3resp.response.text ≠ ""
    ∧ (cueOnInterrupt 2 w3store ("r3") true).2 = [ToolContent.text cueTimedOutMsg]
    ∧ (cueOnInterrupt 2 w3store ("r3") true).2 ≠ buildToolResult w3resp.response
    ∧ (cueOnInterrupt 2 w3store ("r3") true).2 ≠ [ToolContent.text cueDeclinedMsg]
    ∧ (cueOnInterrupt 2 w3store ("r3") true).2 ≠ [ToolContent.text cueNoInputMsg] := by
  refine ⟨rfl, rfl, by decide, rfl, by decide, by decide, by decide⟩

/-- Claim C3 (amended): on the timeout or cancellation path, when a
response already exists for the request, cue skips the synthetic write
(the stored responses are untouched and the lookup still returns the
stored response) but does not re-read or classify it: it still sets the
request status to Cancelled and returns the timed-out or cancelled
message unconditionally. -/
theorem cue_interrupt_with_existing_response
    (now : Nat) (s : Store) (rid : String) (isTimeout : Bool)
    (h : (getResponse s rid).isSome = true) :
    (cueOnInterrupt now s rid isTimeout).1.responses = s.responses
    ∧ getResponse (cueOnInterrupt now s rid isTimeout).1 rid = getResponse s rid
    ∧ statusOf (cueOnInterrupt now s rid isTimeout).1 rid
        = (statusOf s rid).map (fun _ => RequestStatus.cancelled)
    ∧ (cueOnInterrupt now s rid isTimeout).2
        = [ToolContent.text (if isTimeout then cueTimedOutMsg else cueCancelledMsg)] := by
  have habs : createResponseIfAbsent s
      (CueResponse.create now rid { text := "", images := [] } true) = s := by
    unfold createResponseIfAbsent
    simp [CueResponse.create, h]
  refine ⟨?_, ?_, ?_, rfl⟩
  · show (updateRequestStatus (createResponseIfAbsent s _) rid
      RequestStatus.cancelled now).responses = s.responses
    rw [habs]
    rfl
  · show getResponse (updateRequestStatus (createResponseIfAbsent s _) rid
      RequestStatus.cancelled now) rid = getResponse s rid
    rw [getResponse_update, habs]
  · show statusOf (updateRequestStatus (createResponseIfAbsent s _) rid
      RequestStatus.cancelled now) rid = (statusOf s rid).map (fun _ => RequestStatus.cancelled)
    rw [statusOf_update, habs]

/-- Witness for the amended C3 at the concrete race store. -/
theorem cue_interrupt_with_existing_response_witness :
    (cueOnInterrupt 2 w3store ("r3") true).1.responses = w3store.responses
    ∧ getResponse (cueOnInterrupt 2 w3store ("r3") true).1 ("r3")
        = getResponse w3store ("r3")
    ∧ statusOf (cueOnInterrupt 2 w3store ("r3") true).1 ("r3")
        = some RequestStatus.cancelled := by
  have h := cue_interrupt_with_existing_response 2 w3store ("r3") true rfl
  exact ⟨h.1, h.2.1, by rw [h.2.2.1]; rfl⟩

theorem cueOnInterrupt_fresh (now : Nat) (s : Store) (rid : String)
    (isTimeout : Bool) (h : getResponse s rid = none) :
    (cueOnInterrupt now s rid isTimeout).2
      = [ToolContent.text (if isTimeout then cueTimedOutMsg else cueCancelledMsg)]
    ∧ getResponse (cueOnInterrupt now s rid isTimeout).1 rid
        = some (CueResponse.create now rid { text := "", images := [] } true)
    ∧ statusOf (cueOnInterrupt now s rid isTimeout).1 rid
        = (statusOf s rid).map (fun _ => RequestStatus.cancelled) := by
  have habs : createResponseIfAbsent s
      (CueResponse.create now rid { text := "", images := [] } true)
      = addResponse s (CueResponse.create now rid { text := "", images := [] } true) := by
    unfold createResponseIfAbsent
    simp [CueResponse.create, h]
  refine ⟨rfl, ?_, ?_⟩
  · show getResponse (updateRequestStatus (createResponseIfAbsent s _) rid
      RequestStatus.cancelled now) rid = _
    rw [getResponse_update, habs]
    exact getResponse_addResponse_of_none s _ h
  · show statusOf (updateRequestStatus (createResponseIfAbsent s _) rid
      RequestStatus.cancelled now) rid = _
    rw [statusOf_update, habs]
    rfl

def w4store : Store := { requests := [], responses := [] }

/-- Counterexample to C4: an externally cancelled pause wait does not
run the synthetic-write procedure — the exception propagates out of
pause, the created request stays Pending, no response is written, and
no cancelled result is returned. -/
theorem pause_extcancel_propagates :
    (pauseTool 5 w4store ("r4") ("tavilron") none none WaitEnd.extCancel).2
      = Except.error ("asyncio.CancelledError")
    ∧ statusOf
        (pauseTool 5 w4store ("r4") ("tavilron") none none WaitEnd.extCancel).1
        ("r4") = some RequestStatus.pending
    ∧ getResponse
        (pauseTool 5 w4store ("r4") ("tavilron") none none WaitEnd.extCancel).1
        ("r4") = none :=
  ⟨rfl, rfl, rfl⟩

/-- Claim C4 (amended): only cue runs the synthetic-write procedure on
external cancellation of its wait — it writes a cancelled empty response
when none exists, sets the request status to Cancelled, and returns the
cancelled result — while pause has no cancellation handler: the
exception propagates out of pause with the store untouched, so a
Request waited on by pause can remain Pending. -/
theorem ext_cancel_handled_in_cue_only
    (now : Nat) (s : Store) (rid : String) :
    (getResponse s rid = none →
      getResponse (cueOnInterrupt now s rid false).1 rid
        = some (CueResponse.create now rid { text := "", images := [] } true)
      ∧ statusOf (cueOnInterrupt now s rid false).1 rid
          = (statusOf s rid).map (fun _ => RequestStatus.cancelled)
      ∧ (cueOnInterrupt now s rid false).2 = [ToolContent.text cueCancelledMsg])
    ∧ pauseAfterWait s WaitEnd.extCancel
        = (s, Except.error ("asyncio.CancelledError")) := by
  constructor
  · intro h
    have hf := cueOnInterrupt_fresh now s rid false h
    exact ⟨hf.2.1, hf.2.2, hf.1⟩
  · rfl

def w4req : CueRequest := mkRequest 4 ("r4") ("tavilron") ("check") none

def w4bstore : Store := { requests := [w4req], responses := [] }

/-- Witness for the amended C4 at a concrete pending request. -/
theorem ext_cancel_handled_in_cue_only_witness :
    getResponse (cueOnInterrupt 6 w4bstore ("r4") false).1 ("r4")
      = some (CueResponse.create 6 ("r4") { text := "", images := [] } true)
    ∧ statusOf (cueOnInterrupt 6 w4bstore ("r4") false).1 ("r4")
        = some RequestStatus.cancelled
    ∧ (cueOnInterrupt 6 w4bstore ("r4") false).2
        = [ToolContent.text cueCancelledMsg]
    ∧ pauseAfterWait w4bstore WaitEnd.extCancel
        = (w4bstore, Except.error ("asyncio.CancelledError")) := by
  have h := ext_cancel_handled_in_cue_only 6 w4bstore ("r4")
  have h1 := h.1 rfl
  exact ⟨h1.1, by rw [h1.2.1]; rfl, h1.2.2, h.2⟩

/-- Counterexample to C5: a store failure during pause's submission
propagates as a raised exception instead of being wrapped into a
textual result. -/
theorem pause_store_failure_propagates :
    (pauseTool 0 w4store ("r5") ("tavilron") none
        (some ("sqlite3.OperationalError: database is locked"))
        (WaitEnd.responded w3resp)).2
      = Except.error ("sqlite3.OperationalError: database is locked") := rfl

/-- Claim C5 (amended): cue always returns a textual result — any
exception raised inside its body is wrapped as an Error text by the
outer handler — but pause has no exception handler, so a store failure
or internal exception during its submission propagates to the caller. -/
theorem cue_wraps_exceptions_pause_propagates
    (now : Nat) (s : Store) (rid aid prompt : String)
    (payload : Option String) (pprompt : Option String)
    (err : String) (e : WaitEnd) :
    cueTool now s rid aid prompt payload (some err) e
      = (s, [ToolContent.text ("Error: " ++ err)])
    ∧ pauseTool now s rid aid pprompt (some err) e = (s, Except.error err) :=
  ⟨rfl, rfl⟩

/-- Claim C6: cue waits with the default bounded deadline of 600
seconds, while pause waits unbounded (its timeout test never fires) and
creates its request with the fixed confirmation-only payload string of
type confirm. -/
theorem cue_bounded_pause_unbounded_confirm
    (now : Nat) (s : Store) (rid aid : String) (prompt : Option String)
    (e : WaitEnd) :
    cueWaitTimeout = some 600
    ∧ (∀ elapsed : Nat, waitTimeoutElapsed pauseWaitTimeout elapsed = false)
    ∧ (pauseTool now s rid aid prompt none e).1.requests
        = s.requests ++
          [mkRequest now rid aid (prompt.getD pauseDefaultPrompt)
            (some pausePayloadText)]
    ∧ strContains pausePayloadText ("\"type\":\"confirm\"") = true := by
  refine ⟨rfl, fun _ => rfl, ?_, by decide⟩
  show (pauseAfterWait (addRequest s
      (mkRequest now rid aid (prompt.getD pauseDefaultPrompt)
        (some pausePayloadText))) e).1.requests = _
  rw [pauseAfterWait_store]
  rfl

/-- Claim C7: the response row the responder loop writes for a
collected reply has cancelled = true iff both the text and the
attachment list are empty, and after the write the request status is
set to Completed. -/
theorem responder_write_classification
    (now : Nat) (s : Store) (req : CueRequest) (user_text : String)
    (images : List ImageContent)
    (hreq : getRequest s req.request_id = some req)
    (hnone : getResponse s req.request_id = none) :
    (handle_request_write now s req user_text images).responses
      = s.responses ++ [responderResponse now req.request_id user_text images]
    ∧ ((responderResponse now req.request_id user_text images).cancelled = true
        ↔ (user_text = "" ∧ images = []))
    ∧ statusOf (handle_request_write now s req user_text images) req.request_id
        = some RequestStatus.completed := by
  refine ⟨rfl, ?_, ?_⟩
  · unfold responderResponse CueResponse.create
    simp [List.isEmpty_iff]
  · show statusOf (updateRequestStatus (addResponse s
      (responderResponse now req.request_id user_text images)) req.request_id
      RequestStatus.completed now) req.request_id = some RequestStatus.completed
    rw [statusOf_update, statusOf_addResponse]
    unfold statusOf
    rw [hreq]
    rfl

def w7req : CueRequest := mkRequest 2 ("r7") ("tavilron") ("done?") none

def w7store : Store := { requests := [w7req], responses := [] }

/-- Witness for C7: an empty reply yields a cancelled response and a
Completed request. -/
theorem responder_write_classification_witness :
    (handle_request_write 9 w7store w7req ("") []).responses
      = [responderResponse 9 ("r7") ("") []]
    ∧ (responderResponse 9 ("r7") ("") []).cancelled = true
    ∧ statusOf (handle_request_write 9 w7store w7req ("") []) ("r7")
        = some RequestStatus.completed := by
  have h := responder_write_classification 9 w7store w7req ("") [] rfl rfl
  exact ⟨h.1, h.2.1.mpr ⟨rfl, rfl⟩, h.2.2⟩

/-- Claim C8: the responder loop's pending-request discovery returns
the Pending request with the smallest created_at for any store
contents, so it keeps returning that request until it is resolved,
regardless of the insertion order of requests and of any stored
responses. -/
theorem oldest_pending_discovery
    (s : Store) (r : CueRequest)
    (hmem : r ∈ s.requests) (hp : r.status = RequestStatus.pending)
    (hmin : ∀ r' ∈ s.requests, r'.status = RequestStatus.pending → r' ≠ r →
      r.created_at < r'.created_at) :
    findOldestPending s = some r := by
  unfold findOldestPending
  apply oldestFirst_eq_min
  · rw [List.mem_filter]
    exact ⟨hmem, by simp [hp]⟩
  · intro r' hr' hne
    rw [List.mem_filter] at hr'
    exact hmin r' hr'.1 (by simpa using hr'.2) hne

def w8a : CueRequest := mkRequest 5 ("ra") ("agentA") ("q1") none

def w8b : CueRequest := mkRequest 9 ("rb") ("agentB") ("q2") none

def w8c : CueRequest := mkRequest 1 ("rc") ("agentC") ("q3") none

def w8d : CueRequest :=
  { mkRequest 0 ("rd") ("agentD") ("q0") none with
    status := RequestStatus.completed }

def w8resp : CueResponse :=
  CueResponse.create 3 ("rb") { text := "hi", images := [] } false

def w8store : Store :=
  { requests := [w8a, w8b, w8d, w8c], responses := [w8resp] }

/-- Witness for C8: among requests created at times 5, 9, 1 (all
Pending, inserted out of creation order) and a Completed one at time 0,
discovery returns the time-1 request, with an unrelated response row
present. -/
theorem oldest_pending_discovery_witness :
    findOldestPending w8store = some w8c :=
  oldest_pending_discovery w8store w8c (by decide) rfl (by decide)

/-- Claim C9: the identity-recovery tool returns the agent_id of the
most recently created request whose prompt contains the hints and whose
agent_id is non-empty; when no such request exists it returns the
freshly generated identity, with no error. -/
theorem recall_identity_recovery
    (s : Store) (hints fresh_name : String) :
    (∀ r ∈ s.requests, r.agent_id ≠ "" → strContains r.prompt hints = true →
      (∀ r' ∈ s.requests, r'.agent_id ≠ "" → strContains r'.prompt hints = true →
        r' ≠ r → r'.created_at < r.created_at) →
      recallTool s hints fresh_name = r.agent_id)
    ∧ ((∀ r ∈ s.requests, r.agent_id = "" ∨ strContains r.prompt hints = false) →
      recallTool s hints fresh_name = fresh_name) := by
  constructor
  · intro r hmem ha hc hmax
    unfold recallTool
    have h1 : r ∈ recallCandidates s hints := by
      unfold recallCandidates
      rw [List.mem_filter]
      exact ⟨hmem, by simp [ha, hc]⟩
    have h2 : ∀ r' ∈ recallCandidates s hints, r' ≠ r →
        r'.created_at < r.created_at := by
      intro r' hr' hne
      unfold recallCandidates at hr'
      rw [List.mem_filter] at hr'
      have hcond := hr'.2
      simp only [Bool.and_eq_true, decide_eq_true_eq] at hcond
      exact hmax r' hr'.1 hcond.1 hcond.2 hne
    rw [newestFirst_eq_max (recallCandidates s hints) r h1 h2]
  · intro hnone
    unfold recallTool
    have hnil : recallCandidates s hints = [] := by
      unfold recallCandidates
      rw [List.filter_eq_nil_iff]
      intro a ha
      rcases hnone a ha with h | h
      · simp [h]
      · simp [h]
    rw [hnil]
    rfl

def w9a : CueRequest :=
  mkRequest 1 ("m1") ("oldagent") ("refactored login module") none

def w9b : CueRequest :=
  mkRequest 7 ("m2") ("tavilron") ("also refactored login later") none

def w9c : CueRequest :=
  mkRequest 9 ("m3") ("other") ("unrelated prompt") none

def w9d : CueRequest :=
  mkRequest 12 ("m4") ("") ("refactored login yet again") none

def w9store : Store :=
  { requests := [w9a, w9c, w9b, w9d], responses := [] }

def w9emptyStore : Store := { requests := [w9c], responses := [] }

/-- Witness for C9: two matching requests (created at 1 and 7), a
non-matching one, and a matching one with empty agent_id — the agent_id
of the time-7 match is returned; with no match, the fresh name is. -/
theorem recall_identity_recovery_witness :
    recallTool w9store ("refactored login") ("brave-fox-17") = "tavilron"
    ∧ recallTool w9emptyStore ("refactored login") ("brave-fox-17")
        = "brave-fox-17" := by
  constructor
  · exact (recall_identity_recovery w9store ("refactored login")
      ("brave-fox-17")).1 w9b (by decide) (by decide) (by decide) (by decide)
  · exact (recall_identity_recovery w9emptyStore ("refactored login")
      ("brave-fox-17")).2 (by decide)

/-- Claim C10: after the responder loop stores a human decline (empty
reply, hence a cancelled response, request set to Completed), cue
observing that response returns the declined result and hands back
exactly the store it was given — no write at all — so the request keeps
the Completed status and updated_at the responder left, and a Cancelled
status can only come from the timeout/cancellation path. -/
theorem cue_decline_is_pure_read
    (now now' : Nat) (s : Store) (req : CueRequest)
    (hreq : getRequest s req.request_id = some req)
    (hnone : getResponse s req.request_id = none) :
    getResponse (handle_request_write now s req ("") []) req.request_id
      = some (responderResponse now req.request_id ("") [])
    ∧ (responderResponse now req.request_id ("") []).cancelled = true
    ∧ cueOnResponse now' (handle_request_write now s req ("") [])
        req.request_id (responderResponse now req.request_id ("") [])
      = (handle_request_write now s req ("") [],
         [ToolContent.text cueDeclinedMsg])
    ∧ statusOf (handle_request_write now s req ("") []) req.request_id
        = some RequestStatus.completed := by
  refine ⟨?_, rfl, rfl, ?_⟩
  · show getResponse (updateRequestStatus
      (addResponse s (responderResponse now req.request_id ("") []))
      req.request_id RequestStatus.completed now) req.request_id = _
    rw [getResponse_update]
    exact getResponse_addResponse_of_none s _ hnone
  · show statusOf (updateRequestStatus
      (addResponse s (responderResponse now req.request_id ("") []))
      req.request_id RequestStatus.completed now) req.request_id = _
    rw [statusOf_update, statusOf_addResponse]
    unfold statusOf
    rw [hreq]
    rfl

def w10req : CueRequest := mkRequest 4 ("r10") ("tavilron") ("proceed?") none

def w10store : Store := { requests := [w10req], responses := [] }

/-- Witness for C10 at a concrete pending request declined at time 5
and observed by cue at time 8. -/
theorem cue_decline_is_pure_read_witness :
    cueOnResponse 8 (handle_request_write 5 w10store w10req ("") []) ("r10")
        (responderResponse 5 ("r10") ("") [])
      = (handle_request_write 5 w10store w10req ("") [],
         [ToolContent.text cueDeclinedMsg])
    ∧ statusOf (handle_request_write 5 w10store w10req ("") []) ("r10")
        = some RequestStatus.completed := by
  have h := cue_decline_is_pure_read 5 8 w10store w10req rfl rfl
  exact ⟨h.2.2.1, h.2.2.2⟩
